import Mathlib

/-!
Verification of the protocol layer of a Linux counter-device user-space
client (`counter.py`): the ioctl request-number generator, the ctypes ABI
structure layouts (`CounterComponent`, `CounterWatch`, `CounterEvent`),
and the event-subscription session lifecycle (`subscribe_events`, the
returned unsubscribe closure, and `read_event`).

Machine integers are modelled as `Nat`; ctypes byte storage truncates
with `% 256`.  Fallible operations return `Except`.  The kernel side of
`subscribe_events` is modelled as an oracle (`KernelEnv`) saying which
requests succeed, and the observable effects are an explicit trace of
device operations plus a final device state.
-/

/- ## Ioctl code generator (counter.py lines 60-84) -/

def IOC_NRBITS : Nat := 8
def IOC_TYPEBITS : Nat := 8
def IOC_SIZEBITS : Nat := 14
def IOC_DIRBITS : Nat := 2
def IOC_NONE : Nat := 0
def IOC_WRITE : Nat := 1
def IOC_READ : Nat := 2

def IOC_NRSHIFT : Nat := 0
def IOC_TYPESHIFT : Nat := IOC_NRSHIFT + IOC_NRBITS
def IOC_SIZESHIFT : Nat := IOC_TYPESHIFT + IOC_TYPEBITS
def IOC_DIRSHIFT : Nat := IOC_SIZESHIFT + IOC_SIZEBITS

/-- Shallow embedding of `_IOC` from counter.py lines 69-79: the fields
are or-ed together in the source's order (direction, type, number, size),
each shifted to its position. -/
def IOC (direction request_type request_nr size : Nat) : Nat :=
  (direction <<< IOC_DIRSHIFT)
    ||| (request_type <<< IOC_TYPESHIFT)
    ||| (request_nr <<< IOC_NRSHIFT)
    ||| (size <<< IOC_SIZESHIFT)

/- ## ctypes structure layout (natural alignment, as ctypes computes it) -/

/-- Round `off` up to the next multiple of the alignment `a`. -/
def alignUp (off a : Nat) : Nat := ((off + a - 1) / a) * a

/-- Given the `(size, alignment)` of each field in order, the total size
and alignment of the ctypes `Structure`: each field is placed at the next
offset aligned to its own alignment, and the total size is the end offset
rounded up to the structure's largest field alignment. -/
def structLayout (fields : List (Nat × Nat)) : Nat × Nat :=
  let fin := fields.foldl
    (fun (acc : Nat × Nat) (f : Nat × Nat) =>
      (alignUp acc.1 f.2 + f.1, max acc.2 f.2))
    (0, 1)
  (alignUp fin.1 fin.2, fin.2)

/-- Layout of `CounterComponent` (counter.py lines 27-33): four `c_uint8`
fields. -/
def counterComponentLayout : Nat × Nat :=
  structLayout [(1, 1), (1, 1), (1, 1), (1, 1)]

def sizeofCounterComponent : Nat := counterComponentLayout.1

/-- Layout of `CounterWatch` (counter.py lines 49-54): an embedded
`CounterComponent` followed by two `c_uint8` fields. -/
def counterWatchLayout : Nat × Nat :=
  structLayout [counterComponentLayout, (1, 1), (1, 1)]

def sizeofCounterWatch : Nat := counterWatchLayout.1

/-- Layout of `CounterEvent` (counter.py lines 87-93): `c_uint64`
timestamp, `c_uint64` value, embedded `CounterWatch`, `c_uint8` status. -/
def counterEventLayout : Nat × Nat :=
  structLayout [(8, 8), (8, 8), counterWatchLayout, (1, 1)]

def sizeofCounterEvent : Nat := counterEventLayout.1

/- ## The three ioctl operation codes (counter.py lines 82-84) -/

def COUNTER_ADD_WATCH_IOCTL : Nat := IOC IOC_WRITE 0x3E 0x00 sizeofCounterWatch

def COUNTER_ENABLE_EVENTS_IOCTL : Nat := IOC IOC_NONE 0x3E 0x01 0

def COUNTER_DISABLE_EVENTS_IOCTL : Nat := IOC IOC_NONE 0x3E 0x02 0

/- ## ABI structures as values, with encode/decode -/

/-- `CounterComponent` (counter.py lines 27-33); each field is one byte
in device memory. -/
structure CounterComponent where
  type : Nat
  scope : Nat
  parent : Nat
  id : Nat
deriving DecidableEq, Repr

/-- `CounterWatch` (counter.py lines 49-54). -/
structure CounterWatch where
  component : CounterComponent
  event : Nat
  channel : Nat
deriving DecidableEq, Repr

/-- `CounterEvent` (counter.py lines 87-93). -/
structure CounterEvent where
  timestamp : Nat
  value : Nat
  watch : CounterWatch
  status : Nat
deriving DecidableEq, Repr

/-- ctypes stores an integer assigned to a `c_uint8` field modulo 256. -/
def byte (n : Nat) : Nat := n % 256

/-- The bytes of a `CounterComponent` as ctypes lays it out: the four
one-byte fields in declaration order, no padding. -/
def CounterComponent.encode (c : CounterComponent) : List Nat :=
  [byte c.type, byte c.scope, byte c.parent, byte c.id]

/-- The bytes of a `CounterWatch`: the embedded component's four bytes
followed by the event and channel bytes, no padding. -/
def CounterWatch.encode (w : CounterWatch) : List Nat :=
  w.component.encode ++ [byte w.event, byte w.channel]

/-- Error kinds surfaced by the protocol layer (spec section 7). -/
inductive CounterError
  | deviceUnavailable
  | watchRejected (w : CounterWatch)
  | enableRejected
  | protocolViolation
  | ioFailure
deriving DecidableEq, Repr

instance {ε α : Type} [DecidableEq ε] [DecidableEq α] :
    DecidableEq (Except ε α) := fun x y =>
  match x, y with
  | .ok a, .ok b =>
    if h : a = b then isTrue (by rw [h])
    else isFalse (by intro hc; cases hc; exact h rfl)
  | .error a, .error b =>
    if h : a = b then isTrue (by rw [h])
    else isFalse (by intro hc; cases hc; exact h rfl)
  | .ok _, .error _ => isFalse (by intro hc; cases hc)
  | .error _, .ok _ => isFalse (by intro hc; cases hc)

/-- `CounterWatch.from_buffer_copy`: ctypes refuses a source buffer
smaller than `sizeof(CounterWatch)` (all-or-nothing), and otherwise reads
the six bytes at offsets 0-5. -/
def CounterWatch.from_buffer_copy (bs : List Nat) :
    Except CounterError CounterWatch :=
  if bs.length < sizeofCounterWatch then
    .error .protocolViolation
  else
    .ok
      { component :=
          { type := bs.getD 0 0, scope := bs.getD 1 0,
            parent := bs.getD 2 0, id := bs.getD 3 0 }
        event := bs.getD 4 0
        channel := bs.getD 5 0 }

/-- Little-endian unsigned integer read of `n` bytes at offset `off`. -/
def readLE (bs : List Nat) (off : Nat) : Nat → Nat
  | 0 => 0
  | n + 1 => bs.getD off 0 + 256 * readLE bs (off + 1) n

/-- `CounterEvent.from_buffer_copy`: refuses a buffer smaller than
`sizeof(CounterEvent)` and otherwise decodes the fields at their ctypes
offsets (timestamp at 0, value at 8, watch at 16, status at 22, one
trailing padding byte). -/
def CounterEvent.from_buffer_copy (bs : List Nat) :
    Except CounterError CounterEvent :=
  if bs.length < sizeofCounterEvent then
    .error .protocolViolation
  else
    .ok
      { timestamp := readLE bs 0 8
        value := readLE bs 8 8
        watch :=
          { component :=
              { type := bs.getD 16 0, scope := bs.getD 17 0,
                parent := bs.getD 18 0, id := bs.getD 19 0 }
            event := bs.getD 20 0
            channel := bs.getD 21 0 }
        status := bs.getD 22 0 }

/-- `read_event` (counter.py lines 271-277): a non-blocking `f.read` of
`sizeof(CounterEvent)` bytes yields either `None` (modelled `none`) or a
byte string; only `None` is mapped to the no-data signal, any returned
byte string is handed to `CounterEvent.from_buffer_copy`. -/
def read_event (data : Option (List Nat)) :
    Except CounterError (Option CounterEvent) :=
  match data with
  | none => .ok none
  | some bs => (CounterEvent.from_buffer_copy bs).map some

/- ## Session lifecycle (counter.py lines 260-279) -/

/-- Observable requests issued to the kernel by the session code. -/
inductive DevOp
  | openDev
  | setNonblock
  | ioctlAddWatch (w : CounterWatch)
  | ioctlEnable
  | ioctlDisable
  | closeDev
deriving DecidableEq, Repr

/-- Oracle for the kernel side: which requests succeed. -/
structure KernelEnv where
  openOk : Bool
  addWatchOk : CounterWatch → Bool
  enableOk : Bool
  disableOk : Bool

/-- The kernel-visible state of the device handle. -/
structure DevState where
  handleOpen : Bool
  eventsEnabled : Bool
  disableCount : Nat
deriving DecidableEq, Repr

/-- The caller-side session value returned by `subscribe_events`: the
popped `ExitStack` whose `close` is the unsubscribe function.  `active`
is false once that stack has been unwound. -/
structure Session where
  active : Bool
deriving DecidableEq, Repr

/-- The add-watch loop of `subscribe_events` (counter.py lines 265-266):
one `ioctl(f, COUNTER_ADD_WATCH_IOCTL, watch)` per watch in order; the
first raising ioctl stops the loop with its error. -/
def processWatches (env : KernelEnv) :
    List CounterWatch → Option CounterError × List DevOp
  | [] => (none, [])
  | w :: rest =>
    if env.addWatchOk w then
      let r := processWatches env rest
      (r.1, DevOp.ioctlAddWatch w :: r.2)
    else
      (some (.watchRejected w), [DevOp.ioctlAddWatch w])

/-- Result of `subscribe_events`: the returned session or the raised
error, the final kernel-visible device state, and the trace of requests
issued. -/
structure SubscribeResult where
  result : Except CounterError Session
  devState : DevState
  trace : List DevOp
deriving Repr

/-- `subscribe_events` (counter.py lines 260-279).  The device is opened
inside an `ExitStack`, set non-blocking, each watch is added, then
events are enabled and the disable callback is pushed; on success
`stack.pop_all()` hands the cleanup to the returned closure, so the
surrounding `with` block unwinds nothing.  If open fails nothing else
runs; if an add-watch or the enable ioctl raises, the `with` block
unwinds the stack — at that point the only registered cleanup is the
file handle, which is closed, and the exception propagates; the disable
callback is registered only after enable succeeded, so no disable is
issued on a construction failure. -/
def subscribe_events (env : KernelEnv) (watches : List CounterWatch) :
    SubscribeResult :=
  if env.openOk then
    match processWatches env watches with
    | (some e, tr) =>
      { result := .error e
        devState := { handleOpen := false, eventsEnabled := false, disableCount := 0 }
        trace := DevOp.openDev :: DevOp.setNonblock :: (tr ++ [DevOp.closeDev]) }
    | (none, tr) =>
      if env.enableOk then
        { result := .ok { active := true }
          devState := { handleOpen := true, eventsEnabled := true, disableCount := 0 }
          trace := DevOp.openDev :: DevOp.setNonblock :: (tr ++ [DevOp.ioctlEnable]) }
      else
        { result := .error .enableRejected
          devState := { handleOpen := false, eventsEnabled := false, disableCount := 0 }
          trace := DevOp.openDev :: DevOp.setNonblock ::
            (tr ++ [DevOp.ioctlEnable, DevOp.closeDev]) }
  else
    { result := .error .deviceUnavailable
      devState := { handleOpen := false, eventsEnabled := false, disableCount := 0 }
      trace := [DevOp.openDev] }

/-- Specification-side characterisation of the first failure during
construction: the first watch whose add-watch request is rejected, or,
if all are accepted, the enable request when it is rejected. -/
def firstFailure (env : KernelEnv) : List CounterWatch → Option CounterError
  | [] => if env.enableOk then none else some .enableRejected
  | w :: rest =>
    if env.addWatchOk w then firstFailure env rest
    else some (.watchRejected w)

/-- Result of one call to the unsubscribe function. -/
structure CloseResult where
  err : Option CounterError
  session : Session
  devState : DevState
  trace : List DevOp
deriving Repr

/-- The unsubscribe function, `stack.pop_all().close` (counter.py line
279).  On an active session `ExitStack.close` unwinds the callbacks in
reverse registration order: first `ioctl(f, COUNTER_DISABLE_EVENTS_IOCTL)`,
then the file handle's exit (close).  If the disable ioctl raises,
`ExitStack` still runs the remaining exits — the handle is closed — and
then re-raises the error.  Unwinding empties the stack, so a second call
to `close` does nothing: no request is issued and no error is raised. -/
def closeSession (env : KernelEnv) (s : Session) (st : DevState) :
    CloseResult :=
  if s.active then
    { err := if env.disableOk then none else some .ioFailure
      session := { active := false }
      devState :=
        { handleOpen := false, eventsEnabled := false,
          disableCount := st.disableCount + 1 }
      trace := [DevOp.ioctlDisable, DevOp.closeDev] }
  else
    { err := none, session := s, devState := st, trace := [] }

/- ## Concrete values used by the witnesses -/

/-- A concrete watch: overflow event on count 0 of the device, as built
in test.py. -/
def watch0 : CounterWatch :=
  { component := { type := 0, scope := 0, parent := 0, id := 0 },
    event := 0, channel := 0 }

/-- A kernel oracle that rejects every add-watch request. -/
def envRejectAdd : KernelEnv :=
  { openOk := true, addWatchOk := fun _ => false,
    enableOk := true, disableOk := true }

/-- A kernel oracle whose disable-events request fails. -/
def envDisableFails : KernelEnv :=
  { openOk := true, addWatchOk := fun _ => true,
    enableOk := true, disableOk := false }

/- ## Theorems -/

/-- C1: for every (direction, request_type, request_nr, size) within the
fixed field widths (number 8 bits, type 8 bits, size 14 bits, direction
2 bits), `_IOC` returns the single unsigned integer packing the number
field at bit 0, the type tag at bit 8, the payload size at bit 16 and
the direction at bit 30, i.e.
`request_nr ||| (request_type <<< 8) ||| (size <<< 16) ||| (direction <<< 30)`;
being a Lean function of its arguments it is pure and deterministic. -/
theorem IOC_packs_fields (direction request_type request_nr size : Nat)
    (hd : direction < 2 ^ IOC_DIRBITS) (ht : request_type < 2 ^ IOC_TYPEBITS)
    (hn : request_nr < 2 ^ IOC_NRBITS) (hs : size < 2 ^ IOC_SIZEBITS) :
    IOC direction request_type request_nr size =
      request_nr ||| (request_type <<< 8) ||| (size <<< 16) ||| (direction <<< 30) := by
  simp only [IOC, IOC_DIRSHIFT, IOC_SIZESHIFT, IOC_TYPESHIFT, IOC_NRSHIFT,
    IOC_NRBITS, IOC_TYPEBITS, IOC_SIZEBITS, Nat.zero_add, Nat.shiftLeft_zero]
  apply Nat.eq_of_testBit_eq
  intro i
  simp only [Nat.testBit_lor]
  cases Nat.testBit (direction <<< 30) i <;>
    cases Nat.testBit (request_type <<< 8) i <;>
    cases Nat.testBit request_nr i <;>
    cases Nat.testBit (size <<< 16) i <;> rfl

/-- C1 witness: the add-watch inputs are within the field widths and the
packing equation holds for them. -/
theorem IOC_packs_fields_witness :
    1 < 2 ^ IOC_DIRBITS ∧ 0x3E < 2 ^ IOC_TYPEBITS ∧ 0 < 2 ^ IOC_NRBITS ∧
    6 < 2 ^ IOC_SIZEBITS ∧
    IOC 1 0x3E 0 6 = 0 ||| (0x3E <<< 8) ||| (6 <<< 16) ||| (1 <<< 30) :=
  ⟨by decide, by decide, by decide, by decide,
    IOC_packs_fields 1 0x3E 0 6 (by decide) (by decide) (by decide) (by decide)⟩

/-- C2 counterexample: the payload-size field carried by the add-watch
ioctl code is not 4 bytes, contradicting the interface table's figure for
the size of one Watch Descriptor. -/
theorem addWatch_payload_not_four :
    (COUNTER_ADD_WATCH_IOCTL >>> 16) % 2 ^ 14 ≠ 4 := by decide

/-- C2 amended: the add-watch ioctl code has write direction and carries
a payload size equal to `sizeof(CounterWatch)`, which is 6 bytes (the 4
one-byte fields of the Component Reference plus 2 further one-byte
fields), not 4. -/
theorem addWatch_ioctl_write_watch_size :
    (COUNTER_ADD_WATCH_IOCTL >>> 30) % 2 ^ 2 = IOC_WRITE ∧
    (COUNTER_ADD_WATCH_IOCTL >>> 16) % 2 ^ 14 = sizeofCounterWatch ∧
    sizeofCounterWatch = sizeofCounterComponent + 2 ∧
    sizeofCounterWatch = 6 := by decide

/-- C3: the three operation codes (add-watch, enable-events,
disable-events) are pairwise distinct, and the generator is
deterministic: equal inputs give equal codes. -/
theorem ioctl_codes_distinct_and_deterministic :
    COUNTER_ADD_WATCH_IOCTL ≠ COUNTER_ENABLE_EVENTS_IOCTL ∧
    COUNTER_ADD_WATCH_IOCTL ≠ COUNTER_DISABLE_EVENTS_IOCTL ∧
    COUNTER_ENABLE_EVENTS_IOCTL ≠ COUNTER_DISABLE_EVENTS_IOCTL ∧
    ∀ d t n s : Nat, IOC d t n s = IOC d t n s :=
  ⟨by decide, by decide, by decide, fun _ _ _ _ => rfl⟩

/-- C4: for every Watch Descriptor whose fields are bytes, encoding it to
its fixed-size byte sequence and decoding that sequence yields a Watch
Descriptor equal to the original in all fields. -/
theorem watch_encode_decode_roundtrip (w : CounterWatch)
    (h1 : w.component.type < 256) (h2 : w.component.scope < 256)
    (h3 : w.component.parent < 256) (h4 : w.component.id < 256)
    (h5 : w.event < 256) (h6 : w.channel < 256) :
    CounterWatch.from_buffer_copy w.encode = .ok w := by
  obtain ⟨⟨a, b, c, d⟩, e, f⟩ := w
  simp [CounterWatch.from_buffer_copy, CounterWatch.encode,
    CounterComponent.encode, byte, Nat.mod_eq_of_lt h1, Nat.mod_eq_of_lt h2,
    Nat.mod_eq_of_lt h3, Nat.mod_eq_of_lt h4, Nat.mod_eq_of_lt h5,
    Nat.mod_eq_of_lt h6, sizeofCounterWatch, counterWatchLayout,
    counterComponentLayout, structLayout, alignUp]

/-- C4 witness: round-trip at a concrete watch. -/
theorem watch_encode_decode_roundtrip_witness :
    watch0.component.type < 256 ∧ watch0.component.scope < 256 ∧
    watch0.component.parent < 256 ∧ watch0.component.id < 256 ∧
    watch0.event < 256 ∧ watch0.channel < 256 ∧
    CounterWatch.from_buffer_copy watch0.encode = .ok watch0 :=
  ⟨by decide, by decide, by decide, by decide, by decide, by decide,
    watch_encode_decode_roundtrip watch0 (by decide) (by decide) (by decide)
      (by decide) (by decide) (by decide)⟩

/-- C8: every byte sequence shorter than one full Event Record's fixed
size yields a protocol-violation error from the decoder, never a
partially populated record; decoding is all-or-nothing. -/
theorem short_event_decode_errors (bs : List Nat)
    (h : bs.length < sizeofCounterEvent) :
    CounterEvent.from_buffer_copy bs = .error .protocolViolation := by
  simp [CounterEvent.from_buffer_copy, h]

/-- C8 witness: a one-byte buffer is short and is rejected. -/
theorem short_event_decode_errors_witness :
    [(0 : Nat)].length < sizeofCounterEvent ∧
    CounterEvent.from_buffer_copy [0] = .error .protocolViolation :=
  ⟨by decide, short_event_decode_errors [0] (by decide)⟩

/-- C9 counterexample: when the non-blocking read yields an empty byte
sequence, `read_event` does not return the no-data signal (it raises a
decode error), refuting the claim for the empty-result case. -/
theorem read_event_empty_not_no_data :
    read_event (some []) ≠ .ok none := by decide

/-- C9 amended: when the non-blocking read yields an absent result
(`None`), `read_event` returns the no-data signal and raises no error;
an empty byte sequence is instead handed to the decoder and yields a
protocol-violation error. -/
theorem read_event_none_is_no_data :
    read_event none = .ok none ∧
    read_event (some []) = .error .protocolViolation := by decide

/-- C10: the fixed Event Record size used as the read buffer size,
`sizeof(CounterEvent)`, equals 24 bytes: the declared fields total 23
bytes (8-byte timestamp, 8-byte value, 6-byte embedded Watch Descriptor,
1-byte status) and one trailing padding byte is added for 8-byte
alignment. -/
theorem counter_event_size_24 :
    sizeofCounterEvent = 24 ∧
    8 + 8 + sizeofCounterWatch + 1 = 23 ∧
    sizeofCounterEvent = (8 + 8 + sizeofCounterWatch + 1) + 1 ∧
    counterEventLayout.2 = 8 := by decide

/-- Helper: a first failure reported by `firstFailure` is either the
first rejected add-watch (the loop's error) or, when every add-watch is
accepted, the rejected enable request. -/
theorem firstFailure_processWatches (env : KernelEnv) (ws : List CounterWatch)
    (e : CounterError) (h : firstFailure env ws = some e) :
    (processWatches env ws).1 = some e ∨
      ((processWatches env ws).1 = none ∧ env.enableOk = false ∧
        e = .enableRejected) := by
  induction ws with
  | nil =>
    right
    cases henv : env.enableOk with
    | true => simp [firstFailure, henv] at h
    | false =>
      simp [firstFailure, henv] at h
      exact ⟨rfl, rfl, h.symm⟩
  | cons w rest ih =>
    cases hw : env.addWatchOk w with
    | true =>
      simp only [firstFailure, hw, if_true] at h
      simpa [processWatches, hw] using ih h
    | false =>
      left
      simp only [firstFailure, hw, Bool.false_eq_true, if_false,
        Option.some.injEq] at h
      simp [processWatches, hw, h]

/-- C5: if, during `subscribe_events`, any add-watch request or the
enable-events request fails, the operation surfaces the first failure as
an error, the device handle is closed by the unwinding `ExitStack`, and
events are never left enabled. -/
theorem subscribe_fail_cleanup (env : KernelEnv) (ws : List CounterWatch)
    (e : CounterError) (hopen : env.openOk = true)
    (hfail : firstFailure env ws = some e) :
    (subscribe_events env ws).result = .error e ∧
    (subscribe_events env ws).devState.handleOpen = false ∧
    (subscribe_events env ws).devState.eventsEnabled = false := by
  have hff := firstFailure_processWatches env ws e hfail
  rcases hp : processWatches env ws with ⟨o, tr⟩
  rw [hp] at hff
  rcases hff with h | ⟨h, hen, he⟩ <;> simp only at h <;> subst h
  · simp [subscribe_events, hopen, hp]
  · subst he
    simp [subscribe_events, hopen, hp, hen]

/-- C5 witness: with every add-watch rejected by the kernel, subscribing
to one watch fails with that watch's rejection, the handle is closed and
events are disabled. -/
theorem subscribe_fail_cleanup_witness :
    envRejectAdd.openOk = true ∧
    firstFailure envRejectAdd [watch0] = some (.watchRejected watch0) ∧
    ((subscribe_events envRejectAdd [watch0]).result =
        .error (.watchRejected watch0) ∧
      (subscribe_events envRejectAdd [watch0]).devState.handleOpen = false ∧
      (subscribe_events envRejectAdd [watch0]).devState.eventsEnabled = false) :=
  ⟨rfl, rfl,
    subscribe_fail_cleanup envRejectAdd [watch0] (.watchRejected watch0) rfl rfl⟩

/-- C6: on an active session the unsubscribe function issues exactly one
disable-events request followed by closing the handle, in that order;
calling it again on the now-closed session issues nothing, raises no
error, and leaves the device state exactly as after the first close, so
closing twice has the same observable effect as closing once. -/
theorem close_once_then_noop (env : KernelEnv) (st : DevState) :
    (closeSession env { active := true } st).trace =
      [DevOp.ioctlDisable, DevOp.closeDev] ∧
    (closeSession env (closeSession env { active := true } st).session
        (closeSession env { active := true } st).devState).trace = [] ∧
    (closeSession env (closeSession env { active := true } st).session
        (closeSession env { active := true } st).devState).err = none ∧
    (closeSession env (closeSession env { active := true } st).session
        (closeSession env { active := true } st).devState).devState =
      (closeSession env { active := true } st).devState := by
  simp [closeSession]

/-- C7: if the disable-events request issued by the unsubscribe function
fails, the failure is reported to the caller but the handle is still
closed — the `ExitStack` runs the remaining exit callbacks before
re-raising. -/
theorem close_disable_failure_still_closes (env : KernelEnv) (st : DevState)
    (hdis : env.disableOk = false) :
    (closeSession env { active := true } st).err = some .ioFailure ∧
    (closeSession env { active := true } st).devState.handleOpen = false ∧
    (closeSession env { active := true } st).trace =
      [DevOp.ioctlDisable, DevOp.closeDev] := by
  simp [closeSession, hdis]

/-- C7 witness: concrete oracle whose disable request fails. -/
theorem close_disable_failure_still_closes_witness :
    envDisableFails.disableOk = false ∧
    ((closeSession envDisableFails { active := true }
        { handleOpen := true, eventsEnabled := true, disableCount := 0 }).err =
          some .ioFailure ∧
      (closeSession envDisableFails { active := true }
        { handleOpen := true, eventsEnabled := true,
          disableCount := 0 }).devState.handleOpen = false ∧
      (closeSession envDisableFails { active := true }
        { handleOpen := true, eventsEnabled := true, disableCount := 0 }).trace =
          [DevOp.ioctlDisable, DevOp.closeDev]) :=
  ⟨rfl, close_disable_failure_still_closes envDisableFails
    { handleOpen := true, eventsEnabled := true, disableCount := 0 } rfl⟩
